import Mathlib

/-!
Shallow embedding of the icalstore inventory / point-of-sale ledger
(`src/models.py`, `src/app.py`) and verification of its specification.

Conventions of the embedding:
* SQLAlchemy `Numeric` (Python `Decimal`) monetary values are modelled as `ℚ`;
  integer columns as `Int` (form quantities are parsed with Python `int`, so
  they may be negative); timestamps as `Nat` seconds on one common clock.
* The four mapped tables are Lean structures holding exactly the columns of
  `models.py`.  Note that `Product` (models.py lines 21-35) has NO `cost_price`
  column, even though `app.py` reads and writes `p.cost_price`; on a mapped
  instance that is a plain transient Python attribute.  `ProductObj` models an
  in-session instance: the row plus that transient attribute, which is absent
  (`none`) on an instance freshly loaded by `Product.query` in a new
  request-scoped session, and which `db.session.commit()` never persists.
* Each Flask handler becomes a pure function from the database value (plus the
  request inputs and the current time / generated reference, which the handler
  obtains from the clock and `gen_ref`) to either an error or the database
  value after `commit`.  `db.session.rollback()` is modelled by returning the
  unchanged input database.  Autoincrement ids are `length + 1` of the table.
-/

namespace Icalstore

/-- models.py `Product` (lines 21-35).  Columns only: there is no `cost_price`
column in the model. -/
structure Product where
  id : Nat
  sku : String
  name : String
  unit : String
  stock_qty : Int
  retail_price : ℚ
  reseller_price : ℚ
  min_level : Int
  notes : String
  created_at : Nat
deriving DecidableEq, Repr

/-- models.py `StockIn` (lines 37-47). -/
structure StockIn where
  id : Nat
  product_id : Nat
  qty : Int
  cost_per_unit : ℚ
  new_retail_price : Option ℚ
  new_reseller_price : Option ℚ
  created_at : Nat
deriving DecidableEq, Repr

/-- models.py `Sale` (lines 71-77). -/
structure Sale where
  id : Nat
  ref : String
  channel : String
  total_amount : ℚ
  created_at : Nat
deriving DecidableEq, Repr

/-- models.py `SaleItem` (lines 79-87). -/
structure SaleItem where
  id : Nat
  sale_id : Nat
  product_id : Nat
  qty : Int
  price : ℚ
deriving DecidableEq, Repr

/-- The persistent store: the four tables the ledger core touches. -/
structure DB where
  products : List Product
  stockins : List StockIn
  sales : List Sale
  sale_items : List SaleItem
deriving DecidableEq, Repr

/-- An in-session `Product` instance: the mapped row plus the transient
`cost_price` Python attribute that app.py assigns although `models.py` defines
no such column.  `none` means the attribute is absent, so reading it raises
`AttributeError`. -/
structure ProductObj where
  row : Product
  cost_price_attr : Option ℚ
deriving DecidableEq, Repr

/-- `Product.query.filter_by(sku=...)` loads a fresh instance in the
request-scoped session; a plain (non-column) attribute is absent on it. -/
def loadProduct (p : Product) : ProductObj :=
  { row := p, cost_price_attr := none }

/-- Errors surfaced by the handlers (flash + redirect in app.py). -/
inductive AppError where
  | invalidQty : AppError
  | notFound : AppError
  | insufficientStock (remaining : Int) (unit : String) : AppError
  | attributeError (attr : String) : AppError
  | invalidInput (msg : String) : AppError
deriving DecidableEq, Repr

deriving instance DecidableEq for Except

/-- `Product.query.filter_by(sku=sku).first()`. -/
def findProduct (products : List Product) (sku : String) : Option Product :=
  products.find? (fun p => p.sku == sku)

/-- Committing a mutated session object writes its mapped columns back over
the row with the same primary key. -/
def replaceProduct (products : List Product) (p : Product) : List Product :=
  products.map (fun x => if x.id = p.id then p else x)

/-- app.py `stockin_add` (lines 182-236).  `cost_raw = none` models an empty
`cost_per_unit` form field; then the code evaluates `Decimal(p.cost_price or 0)`,
and since the freshly loaded instance has no `cost_price` attribute (no such
column exists), attribute access raises `AttributeError`.  On success the
commit persists the `StockIn` row and the mapped `Product` columns; the
transient `cost_price` attribute set at line 226 is dropped. -/
def stockin_add (db : DB) (now : Nat) (sku : String) (qty : Int)
    (cost_raw : Option ℚ) (new_retail new_reseller : Option ℚ) :
    Except AppError DB :=
  if qty ≤ 0 then .error .invalidQty
  else
    match findProduct db.products sku with
    | none => .error .notFound
    | some p =>
      let obj := loadProduct p
      match (match cost_raw with
             | none =>
               (match obj.cost_price_attr with
                | none => Except.error (AppError.attributeError "cost_price")
                | some c => Except.ok c)
             | some c => Except.ok c : Except AppError ℚ) with
      | .error e => .error e
      | .ok cost_per_unit =>
        let si : StockIn :=
          { id := db.stockins.length + 1, product_id := p.id, qty := qty,
            cost_per_unit := cost_per_unit, new_retail_price := new_retail,
            new_reseller_price := new_reseller, created_at := now }
        let obj := { obj with
          row := { obj.row with stock_qty := obj.row.stock_qty + qty } }
        let obj := { obj with cost_price_attr := some cost_per_unit }
        let obj := match new_retail with
          | some r => { obj with row := { obj.row with retail_price := r } }
          | none => obj
        let obj := match new_reseller with
          | some r => { obj with row := { obj.row with reseller_price := r } }
          | none => obj
        .ok { db with products := replaceProduct db.products obj.row,
                      stockins := db.stockins ++ [si] }

/-- app.py `manual_sale` (lines 655-708). -/
def manual_sale (db : DB) (now : Nat) (ref : String) (sku : String) (qty : Int)
    (price_raw : Option ℚ) : Except AppError DB :=
  if qty ≤ 0 then .error .invalidQty
  else
    match findProduct db.products sku with
    | none => .error .notFound
    | some p =>
      if p.stock_qty < qty then .error (.insufficientStock p.stock_qty p.unit)
      else
        let price := match price_raw with
          | none => p.retail_price
          | some c => c
        let saleId := db.sales.length + 1
        let item : SaleItem :=
          { id := db.sale_items.length + 1, sale_id := saleId,
            product_id := p.id, qty := qty, price := price }
        .ok { db with
          products := replaceProduct db.products
            { p with stock_qty := p.stock_qty - qty },
          sales := db.sales ++
            [{ id := saleId, ref := ref, channel := "manual",
               total_amount := price * (qty : ℚ), created_at := now }],
          sale_items := db.sale_items ++ [item] }

/-- Concrete product used in the evaluation theorems. -/
def exProduct : Product :=
  { id := 1, sku := "SKU-1", name := "Widget", unit := "pcs", stock_qty := 10,
    retail_price := 20, reseller_price := 15, min_level := 0, notes := "",
    created_at := 0 }

/-- Concrete one-product database used in the evaluation theorems. -/
def exDB : DB :=
  { products := [exProduct], stockins := [], sales := [], sale_items := [] }

/-- The database produced by a stock-in of 20 units at explicit cost 7 on
`exDB`: stock becomes 30, the `StockIn` row records cost 7, the `Product` row
is otherwise unchanged — and holds no cost at all (the type has no such
field, because `models.py` has no such column). -/
def exDB2 : DB :=
  { products := [{ exProduct with stock_qty := 30 }],
    stockins := [{ id := 1, product_id := 1, qty := 20, cost_per_unit := 7,
                   new_retail_price := none, new_reseller_price := none,
                   created_at := 100 }],
    sales := [], sale_items := [] }

/-- C1: the claim says a stock-in with `cost_per_unit` omitted carries forward
the product's stored cost.  The code instead raises `AttributeError`: `Product`
(models.py lines 21-35) has no `cost_price` column, so the freshly loaded
instance has no `cost_price` attribute to read at app.py line 205, and no
stock-in (nor the `StockIn` record, nor the stock increment) is persisted. -/
theorem stockin_carry_forward_crashes :
    stockin_add exDB 100 "SKU-1" 20 none none none =
      .error (.attributeError "cost_price") := by
  rfl

/-- C2: a stock-in with explicit cost 7 does append the `StockIn` record, add
the quantity to the stock and leave unsupplied price overrides unchanged — but
the product's "stored cost price" does not become 7: the assignment at app.py
line 226 targets a transient attribute with no backing column, so nothing is
persisted, and a follow-up stock-in that omits the cost (which per the claim
should now carry 7 forward) raises `AttributeError` instead. -/
theorem stockin_cost_not_persisted :
    stockin_add exDB 100 "SKU-1" 20 (some 7) none none = .ok exDB2 ∧
    stockin_add exDB2 200 "SKU-1" 5 none none none =
      .error (.attributeError "cost_price") := by
  constructor
  · rfl
  · rfl

/-- Outcome of app.py `store_checkout_post`: the flash/redirect the user sees.
The accompanying database value and cart value are returned alongside by
`store_checkout_post` itself. -/
inductive CheckoutResult where
  | emptyCart : CheckoutResult
  | insufficient (productName : String) (remaining : Int) : CheckoutResult
  | committed (ref : String) : CheckoutResult
deriving DecidableEq, Repr

/-- The `for sku, qty in cart.items()` loop of app.py lines 626-646: threads
the session state (mutated products, pending `SaleItem` rows, running total,
next autoincrement item id); a line whose SKU matches no product or whose
quantity is `<= 0` is skipped with `continue`; an insufficient line raises the
abort (flash + rollback) carrying the product name and its current stock. -/
def checkoutLoop (saleId : Nat) :
    List Product → List SaleItem → ℚ → Nat → List (String × Int) →
    Except (String × Int) (List Product × List SaleItem × ℚ × Nat)
  | products, items, total, nextId, [] => .ok (products, items, total, nextId)
  | products, items, total, nextId, (sku, qty) :: rest =>
    match findProduct products sku with
    | none => checkoutLoop saleId products items total nextId rest
    | some p =>
      if qty ≤ 0 then checkoutLoop saleId products items total nextId rest
      else if p.stock_qty < qty then .error (p.name, p.stock_qty)
      else
        let price := p.retail_price
        let item : SaleItem :=
          { id := nextId, sale_id := saleId, product_id := p.id,
            qty := qty, price := price }
        checkoutLoop saleId
          (replaceProduct products { p with stock_qty := p.stock_qty - qty })
          (items ++ [item]) (total + price * (qty : ℚ)) (nextId + 1) rest

/-- app.py `store_checkout_post` (lines 612-653).  The session cart is the
`(sku, qty)` list in dict iteration order.  An empty cart only flashes a
warning; an insufficient line rolls the whole transaction back (the returned
database and cart are the originals); on success the `Sale` header (added and
flushed before the loop, hence carrying the pre-allocated id) is committed
with the summed total, the items and stock updates persist, and the cart is
cleared. -/
def store_checkout_post (db : DB) (now : Nat) (ref : String)
    (cart : List (String × Int)) : DB × List (String × Int) × CheckoutResult :=
  if cart.isEmpty then (db, cart, .emptyCart)
  else
    let saleId := db.sales.length + 1
    match checkoutLoop saleId db.products [] 0 (db.sale_items.length + 1) cart with
    | .error (productName, remaining) => (db, cart, .insufficient productName remaining)
    | .ok (prods, items, total, _) =>
      ({ db with products := prods,
                 sales := db.sales ++
                   [{ id := saleId, ref := ref, channel := "store",
                      total_amount := total, created_at := now }],
                 sale_items := db.sale_items ++ items },
       [], .committed ref)

theorem checkoutLoop_append (saleId : Nat) (pre rest : List (String × Int)) :
    ∀ (products : List Product) (items : List SaleItem) (total : ℚ) (nextId : Nat),
    checkoutLoop saleId products items total nextId (pre ++ rest) =
      match checkoutLoop saleId products items total nextId pre with
      | .ok (ps, its, t, n) => checkoutLoop saleId ps its t n rest
      | .error e => .error e := by
  induction pre with
  | nil => intro products items total nextId; simp [checkoutLoop]
  | cons hd tl ih =>
    intro products items total nextId
    obtain ⟨sku, qty⟩ := hd
    simp only [List.cons_append, checkoutLoop]
    cases hfp : findProduct products sku with
    | none => exact ih products items total nextId
    | some p =>
      by_cases hq : qty ≤ 0
      · simp only [if_pos hq]; exact ih products items total nextId
      · simp only [if_neg hq]
        by_cases hs : p.stock_qty < qty
        · simp only [if_pos hs]
        · simp only [if_neg hs]
          exact ih _ _ _ _

theorem mem_replaceProduct {products : List Product} {p x : Product}
    (hx : x ∈ replaceProduct products p) : x ∈ products ∨ x = p := by
  simp only [replaceProduct, List.mem_map] at hx
  obtain ⟨y, hy, hxy⟩ := hx
  by_cases h : y.id = p.id
  · right; rw [← hxy, if_pos h]
  · left; rw [← hxy, if_neg h]; exact hy

theorem checkoutLoop_nonneg (saleId : Nat) (cart : List (String × Int)) :
    ∀ (products : List Product) (items : List SaleItem) (total : ℚ) (nextId : Nat)
      (ps : List Product) (its : List SaleItem) (t : ℚ) (n : Nat),
    (∀ x ∈ products, 0 ≤ x.stock_qty) →
    checkoutLoop saleId products items total nextId cart = .ok (ps, its, t, n) →
    ∀ x ∈ ps, 0 ≤ x.stock_qty := by
  induction cart with
  | nil =>
    intro products items total nextId ps its t n hnn hloop
    simp [checkoutLoop] at hloop
    obtain ⟨h1, _, _, _⟩ := hloop
    rw [← h1]; exact hnn
  | cons hd tl ih =>
    intro products items total nextId ps its t n hnn hloop
    obtain ⟨sku, qty⟩ := hd
    simp only [checkoutLoop] at hloop
    split at hloop
    · exact ih products items total nextId ps its t n hnn hloop
    · split at hloop
      · exact ih products items total nextId ps its t n hnn hloop
      · split at hloop
        · cases hloop
        · rename_i p hfp hq hs
          refine ih _ _ _ _ ps its t n ?_ hloop
          intro x hx
          rcases mem_replaceProduct hx with h | h
          · exact hnn x h
          · rw [h]; simp only [Int.sub_nonneg]
            exact le_of_not_lt hs


theorem checkoutLoop_skipped (saleId : Nat) (cart : List (String × Int)) :
    ∀ (products : List Product) (items : List SaleItem) (total : ℚ) (nextId : Nat),
    (∀ l ∈ cart, findProduct products l.1 = none ∨ l.2 ≤ 0) →
    checkoutLoop saleId products items total nextId cart =
      .ok (products, items, total, nextId) := by
  induction cart with
  | nil => intro products items total nextId _; rfl
  | cons hd tl ih =>
    intro products items total nextId hall
    obtain ⟨sku, qty⟩ := hd
    have hhd : findProduct products sku = none ∨ qty ≤ 0 :=
      hall (sku, qty) (List.mem_cons_self _ _)
    have htl : ∀ l ∈ tl, findProduct products l.1 = none ∨ l.2 ≤ 0 :=
      fun l hl => hall l (List.mem_cons_of_mem _ hl)
    simp only [checkoutLoop]
    split
    · exact ih products items total nextId htl
    · rename_i p hfp
      rcases hhd with h | h
      · simp [hfp] at h
      · rw [if_pos h]
        exact ih products items total nextId htl

/-- C3: in a checkout whose cart contains, after some successfully processed
prefix `pre`, a line whose quantity exceeds the (possibly already decremented)
stock of its product, the whole transaction is rolled back at that line: the
returned database and cart are the originals (so the prefix decrements, the
`Sale` header and all `SaleItem` rows vanish), the abort names that line's
product and its current stock, and the result does not depend on the
subsequent lines `post` (they are never evaluated). -/
theorem checkout_insufficient_aborts_all (db : DB) (now : Nat) (ref : String)
    (pre post : List (String × Int)) (sku : String) (qty : Int)
    (prods : List Product) (items : List SaleItem) (total : ℚ) (nextId : Nat)
    (p : Product)
    (hpre : checkoutLoop (db.sales.length + 1) db.products [] 0
      (db.sale_items.length + 1) pre = .ok (prods, items, total, nextId))
    (hp : findProduct prods sku = some p)
    (hq : 0 < qty) (hins : p.stock_qty < qty) :
    store_checkout_post db now ref (pre ++ (sku, qty) :: post) =
      (db, pre ++ (sku, qty) :: post, .insufficient p.name p.stock_qty) := by
  have hne : (pre ++ (sku, qty) :: post).isEmpty = false := by
    cases pre <;> rfl
  simp only [store_checkout_post, hne, Bool.false_eq_true, if_false,
    checkoutLoop_append, hpre]
  simp only [checkoutLoop, hp, if_neg (not_le.mpr hq), if_pos hins]

/-- Witness data for the checkout theorems: two products, the second with
almost no stock. -/
def exA : Product :=
  { id := 1, sku := "A", name := "Alpha", unit := "pcs", stock_qty := 5,
    retail_price := 2, reseller_price := 1, min_level := 0, notes := "",
    created_at := 0 }

def exB : Product :=
  { id := 2, sku := "B", name := "Beta", unit := "pcs", stock_qty := 1,
    retail_price := 4, reseller_price := 3, min_level := 0, notes := "",
    created_at := 0 }

def exDB3 : DB :=
  { products := [exA, exB], stockins := [], sales := [], sale_items := [] }

/-- Witness for C3: a two-line cart whose second line is insufficient leaves
both lines' stock untouched — the first line's decrement is rolled back. -/
theorem checkout_insufficient_aborts_all_w :
    store_checkout_post exDB3 0 "STORE-1" [("A", 3), ("B", 2)] =
      (exDB3, [("A", 3), ("B", 2)], .insufficient "Beta" 1) :=
  checkout_insufficient_aborts_all exDB3 0 "STORE-1" [("A", 3)] [] "B" 2
    [{ exA with stock_qty := exA.stock_qty - 3 }, exB]
    [{ id := 1, sale_id := 1, product_id := exA.id, qty := 3,
       price := exA.retail_price }]
    (0 + exA.retail_price * ((3 : Int) : ℚ)) 2 exB
    (by rfl) (by rfl) (by decide) (by decide)

/-- C4: no sale or checkout path drives a stock quantity below zero.  A manual
sale of more than the available (nonnegative) stock fails with the
insufficient-stock error carrying the current stock level, and both operations
preserve nonnegativity of every product's stock. -/
theorem sale_checkout_stock_nonneg :
    (∀ (db : DB) (now : Nat) (ref sku : String) (qty : Int) (price : Option ℚ)
       (p : Product), findProduct db.products sku = some p →
       0 ≤ p.stock_qty → p.stock_qty < qty →
       manual_sale db now ref sku qty price =
         .error (.insufficientStock p.stock_qty p.unit)) ∧
    (∀ (db : DB) (now : Nat) (ref sku : String) (qty : Int) (price : Option ℚ)
       (db' : DB), (∀ x ∈ db.products, 0 ≤ x.stock_qty) →
       manual_sale db now ref sku qty price = .ok db' →
       ∀ x ∈ db'.products, 0 ≤ x.stock_qty) ∧
    (∀ (db : DB) (now : Nat) (ref : String) (cart : List (String × Int))
       (db' : DB) (cart' : List (String × Int)) (res : CheckoutResult),
       (∀ x ∈ db.products, 0 ≤ x.stock_qty) →
       store_checkout_post db now ref cart = (db', cart', res) →
       ∀ x ∈ db'.products, 0 ≤ x.stock_qty) := by
  refine ⟨?_, ?_, ?_⟩
  · intro db now ref sku qty price p hp h0 hlt
    have h1 : ¬ qty ≤ 0 := by omega
    simp only [manual_sale, if_neg h1, hp, if_pos hlt]
  · intro db now ref sku qty price db' hnn hok
    simp only [manual_sale] at hok
    split at hok
    · cases hok
    · split at hok
      · cases hok
      · split at hok
        · cases hok
        · rename_i hs
          simp only [Except.ok.injEq] at hok
          subst hok
          intro x hx
          rcases mem_replaceProduct hx with h | h
          · exact hnn x h
          · rw [h]
            exact Int.sub_nonneg.mpr (le_of_not_lt hs)
  · intro db now ref cart db' cart' res hnn heq
    simp only [store_checkout_post] at heq
    split at heq
    · simp only [Prod.mk.injEq] at heq
      obtain ⟨h1, -, -⟩ := heq
      subst h1
      exact hnn
    · split at heq
      · simp only [Prod.mk.injEq] at heq
        obtain ⟨h1, -, -⟩ := heq
        subst h1
        exact hnn
      · rename_i prods items total n hloop
        simp only [Prod.mk.injEq] at heq
        obtain ⟨h1, -, -⟩ := heq
        subst h1
        intro x hx
        exact checkoutLoop_nonneg _ cart db.products [] 0 _ prods items total n
          hnn hloop x hx

/-- Witness for C4: selling 11 units of a product with stock 10 fails with the
insufficient-stock error carrying the current stock level. -/
theorem sale_checkout_stock_nonneg_w :
    manual_sale exDB 0 "OFF" "SKU-1" 11 none =
      .error (.insufficientStock 10 "pcs") :=
  sale_checkout_stock_nonneg.1 exDB 0 "OFF" "SKU-1" 11 none exProduct
    (by rfl) (by decide) (by decide)

/-- C9: a manual sale with the price field omitted resolves the unit price to
the product's current retail price: the recorded `SaleItem` carries that price
and the `Sale` total is `retail_price × qty`. -/
theorem manual_sale_default_price (db : DB) (now : Nat) (ref sku : String)
    (qty : Int) (p : Product) (hq : 0 < qty)
    (hp : findProduct db.products sku = some p) (hs : qty ≤ p.stock_qty) :
    manual_sale db now ref sku qty none =
      .ok { db with
        products := replaceProduct db.products
          { p with stock_qty := p.stock_qty - qty },
        sales := db.sales ++
          [{ id := db.sales.length + 1, ref := ref, channel := "manual",
             total_amount := p.retail_price * (qty : ℚ), created_at := now }],
        sale_items := db.sale_items ++
          [{ id := db.sale_items.length + 1, sale_id := db.sales.length + 1,
             product_id := p.id, qty := qty, price := p.retail_price }] } := by
  have h1 : ¬ qty ≤ 0 := not_le.mpr hq
  have h2 : ¬ p.stock_qty < qty := not_lt.mpr hs
  simp only [manual_sale, if_neg h1, hp, if_neg h2]

/-- Witness product for the C9 scenario: retail price 12.50. -/
def exP9 : Product :=
  { id := 9, sku := "SKU-9", name := "Gadget", unit := "pcs", stock_qty := 5,
    retail_price := 12.5, reseller_price := 10, min_level := 0, notes := "",
    created_at := 0 }

def exDB9 : DB :=
  { products := [exP9], stockins := [], sales := [], sale_items := [] }

/-- Witness for C9: omitted price, retail 12.50, qty 2 → `SaleItem.price`
12.50 and `Sale.total_amount` 25.00. -/
theorem manual_sale_default_price_w :
    manual_sale exDB9 0 "OFF-1" "SKU-9" 2 none =
      .ok { exDB9 with
        products := [{ exP9 with stock_qty := 3 }],
        sales := [{ id := 1, ref := "OFF-1", channel := "manual",
                    total_amount := 25, created_at := 0 }],
        sale_items := [{ id := 1, sale_id := 1, product_id := 9, qty := 2,
                         price := 12.5 }] } := by
  have h := manual_sale_default_price exDB9 0 "OFF-1" "SKU-9" 2 exP9
    (by decide) (by rfl) (by decide)
  rw [h]
  simp only [Except.ok.injEq, exDB9, exP9, replaceProduct, List.map,
    DB.mk.injEq, Product.mk.injEq, Sale.mk.injEq, SaleItem.mk.injEq,
    List.cons.injEq, List.nil_append, List.append_nil]
  norm_num

/-- C10: checkout silently skips cart lines with an unknown SKU or a
nonpositive quantity; a non-empty cart in which every line is skipped still
commits a `Sale` header with `total_amount` 0, adds no `SaleItem` rows,
changes no stock, and clears the cart. -/
theorem checkout_skips_bad_lines (db : DB) (now : Nat) (ref : String)
    (cart : List (String × Int)) (hne : cart ≠ [])
    (hall : ∀ l ∈ cart, findProduct db.products l.1 = none ∨ l.2 ≤ 0) :
    store_checkout_post db now ref cart =
      ({ db with sales := db.sales ++
           [{ id := db.sales.length + 1, ref := ref, channel := "store",
              total_amount := 0, created_at := now }] },
       [], .committed ref) := by
  have hne' : cart.isEmpty = false := by
    cases cart with
    | nil => exact absurd rfl hne
    | cons a l => rfl
  simp only [store_checkout_post, hne', Bool.false_eq_true, if_false]
  rw [checkoutLoop_skipped _ _ _ _ _ _ hall]
  simp

/-- Witness for C10: a cart with one unknown-SKU line and one zero-quantity
line commits an empty zero-total sale and clears the cart. -/
theorem checkout_skips_bad_lines_w :
    store_checkout_post exDB 7 "STORE-2" [("NOPE", 5), ("SKU-1", 0)] =
      ({ exDB with sales := [{ id := 1, ref := "STORE-2", channel := "store",
                               total_amount := 0, created_at := 7 }] },
       [], .committed "STORE-2") := by
  have h := checkout_skips_bad_lines exDB 7 "STORE-2" [("NOPE", 5), ("SKU-1", 0)]
    (by decide) (by decide)
  rw [h]
  rfl


/-! Ledger query engine: app.py `cashflow` (lines 242-381).  Python
`datetime.strptime(s, "%Y-%m-%d")` accepts a 4-digit year, a 1-2 digit month
in 1..12 and a 1-2 digit day valid for that month, separated by single
dashes, and yields that date at local midnight; anything else raises
`ValueError`.  Datetimes are modelled as seconds on one clock, a date mapping
to midnight = 86400 × its proleptic-Gregorian day number. -/

def isLeap (y : Nat) : Bool :=
  y % 4 == 0 && (y % 100 != 0 || y % 400 == 0)

def daysInMonth (y m : Nat) : Nat :=
  if m = 2 then (if isLeap y then 29 else 28)
  else if m = 4 ∨ m = 6 ∨ m = 9 ∨ m = 11 then 30
  else 31

def dayOfYear (y m d : Nat) : Nat :=
  ((List.range (m - 1)).map (fun i => daysInMonth y (i + 1))).sum + d

def daysSinceYear1 (y m d : Nat) : Nat :=
  365 * (y - 1) + (y - 1) / 4 - (y - 1) / 100 + (y - 1) / 400 +
    (dayOfYear y m d - 1)

/-- Midnight of a calendar date, in seconds. -/
def dateToSecs (ymd : Nat × Nat × Nat) : Nat :=
  86400 * daysSinceYear1 ymd.1 ymd.2.1 ymd.2.2

/-- `str.split("-")` on the character list. -/
def splitDash : List Char → List (List Char)
  | [] => [[]]
  | c :: rest =>
    let r := splitDash rest
    if c = '-' then [] :: r
    else
      match r with
      | h :: t => (c :: h) :: t
      | [] => [[c]]

def digitsVal (cs : List Char) : Nat :=
  cs.foldl (fun n c => n * 10 + (c.toNat - 48)) 0

/-- `datetime.strptime(s, "%Y-%m-%d")`, returning the calendar date or `none`
on `ValueError`. -/
def parseYMD (s : String) : Option (Nat × Nat × Nat) :=
  match splitDash s.toList with
  | [ys, ms, ds] =>
    if ys.length = 4 ∧ ys.all Char.isDigit ∧
       1 ≤ ms.length ∧ ms.length ≤ 2 ∧ ms.all Char.isDigit ∧
       1 ≤ ds.length ∧ ds.length ≤ 2 ∧ ds.all Char.isDigit then
      let y := digitsVal ys
      let m := digitsVal ms
      let d := digitsVal ds
      if 1 ≤ y ∧ 1 ≤ m ∧ m ≤ 12 ∧ 1 ≤ d ∧ d ≤ daysInMonth y m then
        some (y, m, d)
      else none
    else none
  | _ => none

/-- The common projected shape of the two event views (app.py lines 277-307):
`{time, ref, channel, sku, product_name, qty, unit_price, amount, etype}`. -/
structure LedgerRow where
  time : Nat
  ref : String
  channel : String
  sku : String
  product_name : String
  qty : Int
  unit_price : ℚ
  amount : ℚ
  etype : String
deriving DecidableEq, Repr

/-- The SALE-event view (app.py lines 277-291): one row per `SaleItem` inner
joined to its `Sale` and `Product`, amount `+qty×price`. -/
def saleEvents (db : DB) : List LedgerRow :=
  db.sale_items.filterMap fun it =>
    match db.sales.find? (fun s => s.id == it.sale_id),
          db.products.find? (fun p => p.id == it.product_id) with
    | some s, some p =>
      some { time := s.created_at, ref := s.ref, channel := s.channel,
             sku := p.sku, product_name := p.name, qty := it.qty,
             unit_price := it.price, amount := (it.qty : ℚ) * it.price,
             etype := "SALE" }
    | _, _ => none

/-- The STOCKIN-event view (app.py lines 294-307): one row per `StockIn`
joined to `Product`, amount `-qty×cost_per_unit`, ref `"IN-" + id`. -/
def stockinEvents (db : DB) : List LedgerRow :=
  db.stockins.filterMap fun si =>
    match db.products.find? (fun p => p.id == si.product_id) with
    | some p =>
      some { time := si.created_at, ref := "IN-" ++ toString si.id,
             channel := "stock_in", sku := p.sku, product_name := p.name,
             qty := si.qty, unit_price := si.cost_per_unit,
             amount := -((si.qty : ℚ) * si.cost_per_unit),
             etype := "STOCKIN" }
    | none => none

/-- The date filter of app.py lines 310-315: inclusive lower bound `dt_from`,
exclusive upper bound `dt_to_excl`; `none` means the bound is absent. -/
def dateOk (dtf dte : Option Nat) (t : Nat) : Bool :=
  (match dtf with
   | none => true
   | some a => decide (a ≤ t)) &&
  (match dte with
   | none => true
   | some b => decide (t < b))

/-- Case-insensitive substring containment: `column.ilike(f"%{q}%")`. -/
def containsCI (hay needle : String) : Bool :=
  go (hay.toList.map Char.toLower) (needle.toList.map Char.toLower)
where
  go : List Char → List Char → Bool
  | [], n => n.isEmpty
  | h :: t, n => n.isPrefixOf (h :: t) || go t n

/-- The text filter of app.py lines 318-321: skipped when `q` is empty,
otherwise SKU or product name contains `q` case-insensitively. -/
def textOk (q : String) (e : LedgerRow) : Bool :=
  q == "" || containsCI e.sku q || containsCI e.product_name q

/-- Both views filtered identically, then `union_all` (app.py lines 309-324):
the full filtered-but-unlimited event set, basis of rows and range balance. -/
def filteredEvents (db : DB) (q : String) (dtf dte : Option Nat) :
    List LedgerRow :=
  (saleEvents db).filter (fun e => dateOk dtf dte e.time && textOk q e) ++
  (stockinEvents db).filter (fun e => dateOk dtf dte e.time && textOk q e)

/-- `date_from` handling (app.py lines 253-254): empty → no bound, malformed
→ `ValueError` → flash naming the YYYY-MM-DD format, parsed → local
midnight. -/
def parseFromFilter (s : String) : Except AppError (Option Nat) :=
  if s = "" then .ok none
  else
    match parseYMD s with
    | none => .error (.invalidInput "Format tanggal harus YYYY-MM-DD")
    | some d => .ok (some (dateToSecs d))

/-- `date_to` handling (app.py lines 255-257): the exclusive bound is the
parsed date plus one day (`dt_to + timedelta(days=1)`). -/
def parseToFilter (s : String) : Except AppError (Option Nat) :=
  if s = "" then .ok none
  else
    match parseYMD s with
    | none => .error (.invalidInput "Format tanggal harus YYYY-MM-DD")
    | some d => .ok (some (dateToSecs d + 86400))

/-- What the cashflow page shows (render_template at app.py lines 370-381,
minus the top-seller list, which no claim concerns). -/
structure LedgerView where
  rows : List LedgerRow
  balance_all_time : ℚ
  balance_range : ℚ
  total_in_all : ℚ
  total_out_all : ℚ
deriving DecidableEq, Repr

/-- app.py `cashflow` (lines 242-381), with the display row cap as a
parameter (the code uses `.limit(500)` at line 330).  Rows are the filtered
union sorted by time descending and capped; `balance_range` sums the
uncapped filtered union; `balance_all_time` is computed from the two
unfiltered aggregate queries (lines 265-270). -/
def cashflowWithCap (cap : Nat) (db : DB) (q date_from date_to : String) :
    Except AppError LedgerView :=
  match parseFromFilter date_from with
  | .error e => .error e
  | .ok dtf =>
    match parseToFilter date_to with
    | .error e => .error e
    | .ok dte =>
      let total_sales_all := (db.sales.map (fun s => s.total_amount)).sum
      let total_stockin_all :=
        (db.stockins.map (fun si => (si.qty : ℚ) * si.cost_per_unit)).sum
      let events := filteredEvents db q dtf dte
      let rows := (events.mergeSort (fun a b => b.time ≤ a.time)).take cap
      .ok { rows := rows,
            balance_all_time := total_sales_all - total_stockin_all,
            balance_range := (events.map (fun e => e.amount)).sum,
            total_in_all := total_sales_all,
            total_out_all := total_stockin_all }

/-- app.py `cashflow` as shipped: cap 500. -/
def cashflow (db : DB) (q date_from date_to : String) :
    Except AppError LedgerView :=
  cashflowWithCap 500 db q date_from date_to


/-- C5: for every successful ledger query, the displayed row list contains
`min(cap, total matching events)` rows (cap 500 as shipped), and
`balance_range` is the sum over the full filtered event set: changing the cap
— in particular reducing it below the true match count — never changes
`balance_range`. -/
theorem ledger_rows_capped_balance_uncapped (cap : Nat) (db : DB)
    (q df dt : String) (dtf dte : Option Nat) (lv lvcap : LedgerView)
    (hf : parseFromFilter df = .ok dtf) (ht : parseToFilter dt = .ok dte)
    (h : cashflow db q df dt = .ok lv)
    (hc : cashflowWithCap cap db q df dt = .ok lvcap) :
    lv.rows.length = min 500 (filteredEvents db q dtf dte).length ∧
    lv.balance_range = ((filteredEvents db q dtf dte).map (fun e => e.amount)).sum ∧
    lvcap.balance_range = lv.balance_range := by
  simp only [cashflow, cashflowWithCap, hf, ht, Except.ok.injEq] at h hc
  subst h
  subst hc
  refine ⟨?_, rfl, rfl⟩
  simp [List.length_take, List.length_mergeSort]

/-- C6: when both date filters parse, the lower bound is the `date_from`
midnight (inclusive) and the upper bound is the `date_to` midnight plus one
day (exclusive), and an event is in the filtered union iff it passes the
no-date-filter query and its timestamp lies in that half-open window — the
same window for both event views, applied before the union. -/
theorem ledger_date_filter_bounds (db : DB) (q dfs dts : String)
    (d1 d2 : Nat × Nat × Nat)
    (h1 : parseYMD dfs = some d1) (h2 : parseYMD dts = some d2) :
    parseFromFilter dfs = .ok (some (dateToSecs d1)) ∧
    parseToFilter dts = .ok (some (dateToSecs d2 + 86400)) ∧
    ∀ e : LedgerRow,
      e ∈ filteredEvents db q (some (dateToSecs d1))
            (some (dateToSecs d2 + 86400)) ↔
        (e ∈ filteredEvents db q none none ∧
         dateToSecs d1 ≤ e.time ∧ e.time < dateToSecs d2 + 86400) := by
  have hne1 : dfs ≠ "" := by
    intro hx
    rw [hx] at h1
    exact Option.noConfusion ((show parseYMD "" = none from rfl).symm.trans h1)
  have hne2 : dts ≠ "" := by
    intro hx
    rw [hx] at h2
    exact Option.noConfusion ((show parseYMD "" = none from rfl).symm.trans h2)
  refine ⟨?_, ?_, ?_⟩
  · simp only [parseFromFilter, if_neg hne1, h1]
  · simp only [parseToFilter, if_neg hne2, h2]
  · intro e
    simp only [filteredEvents, List.mem_append, List.mem_filter, dateOk,
      Bool.and_eq_true, Bool.true_and, decide_eq_true_eq]
    tauto

/-- C7: for every successful ledger query, `balance_all_time` equals the sum
of all `Sale.total_amount` minus the sum of all `StockIn.qty × cost_per_unit`,
and any two successful queries over the same data — whatever their date/text
filters — report the same `balance_all_time`. -/
theorem balance_all_time_unfiltered (db : DB) (q df dt q2 df2 dt2 : String)
    (lv lv2 : LedgerView)
    (h : cashflow db q df dt = .ok lv)
    (h2 : cashflow db q2 df2 dt2 = .ok lv2) :
    lv.balance_all_time =
      (db.sales.map (fun s => s.total_amount)).sum -
      (db.stockins.map (fun si => (si.qty : ℚ) * si.cost_per_unit)).sum ∧
    lv.balance_all_time = lv2.balance_all_time := by
  simp only [cashflow, cashflowWithCap] at h h2
  split at h
  · cases h
  · split at h
    · cases h
    · simp only [Except.ok.injEq] at h
      subst h
      split at h2
      · cases h2
      · split at h2
        · cases h2
        · simp only [Except.ok.injEq] at h2
          subst h2
          exact ⟨rfl, rfl⟩

theorem parseFromFilter_cases (s : String) :
    (∃ x, parseFromFilter s = .ok x) ∨
    parseFromFilter s = .error (.invalidInput "Format tanggal harus YYYY-MM-DD") := by
  unfold parseFromFilter
  split
  · exact .inl ⟨none, rfl⟩
  · split
    · exact .inr rfl
    · exact .inl ⟨_, rfl⟩

/-- C8: a malformed (non-empty, unparseable) `date_from` or `date_to` makes
the whole ledger query fail with the invalid-input signal naming the expected
YYYY-MM-DD format; no ledger data is returned. -/
theorem malformed_date_rejected (db : DB) (q df dt : String)
    (h : (df ≠ "" ∧ parseYMD df = none) ∨ (dt ≠ "" ∧ parseYMD dt = none)) :
    cashflow db q df dt =
      .error (.invalidInput "Format tanggal harus YYYY-MM-DD") := by
  rcases h with ⟨hne, hp⟩ | ⟨hne, hp⟩
  · simp [cashflow, cashflowWithCap, parseFromFilter, if_neg hne, hp]
  · rcases parseFromFilter_cases df with ⟨x, hx⟩ | hx
    · simp [cashflow, cashflowWithCap, hx, parseToFilter, if_neg hne, hp]
    · simp [cashflow, cashflowWithCap, hx]

/-- Witness fixtures for the ledger claims: one sale-item event late on
2024-01-01 and one stock-in event at exactly 2024-01-02 00:00:00. -/
def t0 : Nat := dateToSecs (2024, 1, 1)

def exDB6 : DB :=
  { products := [exProduct],
    stockins := [{ id := 1, product_id := 1, qty := 2, cost_per_unit := 3,
                   new_retail_price := none, new_reseller_price := none,
                   created_at := t0 + 86400 }],
    sales := [{ id := 1, ref := "TRX-1", channel := "store",
                total_amount := 10, created_at := t0 + 86399 }],
    sale_items := [{ id := 1, sale_id := 1, product_id := 1, qty := 1,
                     price := 10 }] }

/-- The SALE ledger row of `exDB6`, timestamped 2024-01-01 23:59:59. -/
def exRow6 : LedgerRow :=
  { time := t0 + 86399, ref := "TRX-1", channel := "store", sku := "SKU-1",
    product_name := "Widget", qty := 1, unit_price := 10,
    amount := ((1 : Int) : ℚ) * 10, etype := "SALE" }

/-- The STOCKIN ledger row of `exDB6`, timestamped 2024-01-02 00:00:00. -/
def exRow6b : LedgerRow :=
  { time := t0 + 86400, ref := "IN-1", channel := "stock_in", sku := "SKU-1",
    product_name := "Widget", qty := 2, unit_price := 3,
    amount := -(((2 : Int) : ℚ) * 3), etype := "STOCKIN" }

/-- Witness for C6: the filter 2024-01-01..2024-01-01 keeps the event at
23:59:59 on Jan 1 and drops the event at exactly Jan 2 00:00:00, whose
timestamp is exactly the exclusive bound. -/
theorem ledger_date_filter_bounds_w :
    exRow6 ∈ filteredEvents exDB6 "" (some (dateToSecs (2024, 1, 1)))
      (some (dateToSecs (2024, 1, 1) + 86400)) ∧
    exRow6b ∉ filteredEvents exDB6 "" (some (dateToSecs (2024, 1, 1)))
      (some (dateToSecs (2024, 1, 1) + 86400)) ∧
    dateToSecs (2024, 1, 2) = dateToSecs (2024, 1, 1) + 86400 := by
  have h := ledger_date_filter_bounds exDB6 "" "2024-01-01" "2024-01-01"
    (2024, 1, 1) (2024, 1, 1) (by decide) (by decide)
  have hu : filteredEvents exDB6 "" none none = [exRow6, exRow6b] := rfl
  refine ⟨?_, ?_, by decide⟩
  · refine (h.2.2 exRow6).mpr ⟨?_, by decide, by decide⟩
    rw [hu]
    exact List.mem_cons_self _ _
  · intro hmem
    have hlt := ((h.2.2 exRow6b).mp hmem).2.2
    exact absurd hlt (by decide)

/-- The ledger view of `exDB6` without filters (cap 500). -/
def exLV : LedgerView :=
  ((cashflow exDB6 "" "" "").toOption).getD ⟨[], 0, 0, 0, 0⟩

/-- The ledger view of `exDB6` without filters, display cap 1. -/
def exLV1 : LedgerView :=
  ((cashflowWithCap 1 exDB6 "" "" "").toOption).getD ⟨[], 0, 0, 0, 0⟩

/-- The ledger view of `exDB6` filtered to 2024-01-01..2024-01-01. -/
def exLV2 : LedgerView :=
  ((cashflow exDB6 "" "2024-01-01" "2024-01-01").toOption).getD ⟨[], 0, 0, 0, 0⟩

/-- Witness for C5: on `exDB6`, the shipped query shows min(500, 2) rows and
a cap of 1 leaves `balance_range` unchanged. -/
theorem ledger_rows_capped_balance_uncapped_w :
    exLV.rows.length = min 500 (filteredEvents exDB6 "" none none).length ∧
    exLV.balance_range =
      ((filteredEvents exDB6 "" none none).map (fun e => e.amount)).sum ∧
    exLV1.balance_range = exLV.balance_range :=
  ledger_rows_capped_balance_uncapped 1 exDB6 "" "" "" none none exLV exLV1
    rfl rfl rfl rfl

/-- Witness for C7: the unfiltered and the date-filtered query on `exDB6`
agree on `balance_all_time`, which equals the all-time formula. -/
theorem balance_all_time_unfiltered_w :
    exLV.balance_all_time =
      ((exDB6.sales.map (fun s => s.total_amount)).sum -
       (exDB6.stockins.map (fun si => (si.qty : ℚ) * si.cost_per_unit)).sum) ∧
    exLV.balance_all_time = exLV2.balance_all_time :=
  balance_all_time_unfiltered exDB6 "" "" "" "" "2024-01-01" "2024-01-01"
    exLV exLV2 rfl rfl

/-- Witness for C8: the malformed date string "2024-1" (two-digit year part
missing) fails the whole query with the invalid-input signal. -/
theorem malformed_date_rejected_w :
    cashflow exDB "" "2024-1" "" =
      .error (.invalidInput "Format tanggal harus YYYY-MM-DD") :=
  malformed_date_rejected exDB "" "2024-1" "" (.inl ⟨by decide, by decide⟩)


end Icalstore
